import Mathlib

/-!
The gorm logger adapter of `database/logger.go` over a zap sink.

A shallow embedding of `src/database/logger.go`.

* A `time.Time` instant and a `time.Duration` are an `Int` counting
  nanoseconds; a `Duration` is an int64.
* `log.LogLevel` is Go's `int`, embedded as `Int`; the four constants are the
  ones of `gorm.io/gorm/logger` (`Silent = iota + 1`, then `Error`, `Warn`,
  `Info`).
* A Go `error` value is `Option GoError`, `none` being `nil`.
* The zap sink is not interpreted: every call made on it is appended to the
  `calls` of the `World`, tagged with the sink reference it was made on.
* The query-info provider `fc` is a thunk; the `World` counts its invocations.
-/

namespace Database

/-! ## time -/

/-- The constant `minDuration` of package time. -/
def minDuration : Int := -(2 ^ 63)

/-- The constant `maxDuration` of package time. -/
def maxDuration : Int := 2 ^ 63 - 1

/-- `Time.Sub`: the difference of two instants, saturating at the ends of the
`Duration` range. -/
def Time.Sub (t u : Int) : Int :=
  if t - u < minDuration then minDuration
  else if t - u > maxDuration then maxDuration
  else t - u

/-- `time.Since(t)` is `time.Now().Sub(t)`; the reading of the clock is the
first argument. -/
def Since (now : Int) (t : Int) : Int := Time.Sub now t

/-- The loop of `fmtFrac` (package time): `prec` low digits of `v` are
written in front of `buf`, trailing zeros omitted. -/
def fmtFracLoop : Nat → List Char → Nat → Bool → List Char × Nat × Bool
  | 0, buf, v, print => (buf, v, print)
  | prec + 1, buf, v, print =>
    let digit := v % 10
    let print := print || digit != 0
    let buf := if print then Char.ofNat (digit + 48) :: buf else buf
    fmtFracLoop prec buf (v / 10) print

/-- `fmtFrac` of package time: formats the fraction of `v / 10^prec` in front
of `buf` and returns the buffer and `v / 10^prec`. -/
def fmtFrac (buf : List Char) (v : Nat) (prec : Nat) : List Char × Nat :=
  match fmtFracLoop prec buf v false with
  | (buf, v, print) => (if print then '.' :: buf else buf, v)

/-- The loop `for v > 0` of `fmtInt`; a uint64 has at most 20 digits. -/
def fmtIntLoop : Nat → List Char → Nat → List Char
  | 0, buf, _ => buf
  | fuel + 1, buf, v =>
    if v > 0 then fmtIntLoop fuel (Char.ofNat (v % 10 + 48) :: buf) (v / 10) else buf

/-- `fmtInt` of package time: formats `v` in front of `buf`. -/
def fmtInt (buf : List Char) (v : Nat) : List Char :=
  if v = 0 then '0' :: buf else fmtIntLoop 20 buf v

/-- `Duration.format` of package time, the buffer being the list of the bytes
written so far (it is filled from its end). -/
def Duration.format (d : Int) : List Char :=
  let u : Nat := if d < 0 then (-d).toNat % 2 ^ 64 else d.toNat
  let neg := d < 0
  let buf : List Char :=
    if u < 1000000000 then
      if u = 0 then ['0', 's']
      else if u < 1000 then
        let (buf, u) := fmtFrac ['n', 's'] u 0
        fmtInt buf u
      else if u < 1000000 then
        let (buf, u) := fmtFrac ['µ', 's'] u 3
        fmtInt buf u
      else
        let (buf, u) := fmtFrac ['m', 's'] u 6
        fmtInt buf u
    else
      let (buf, u) := fmtFrac ['s'] u 9
      let buf := fmtInt buf (u % 60)
      let u := u / 60
      if u > 0 then
        let buf := fmtInt ('m' :: buf) (u % 60)
        let u := u / 60
        if u > 0 then fmtInt ('h' :: buf) u else buf
      else buf
  if neg ∧ u ≠ 0 then '-' :: buf else buf

/-- `Duration.String`: the rendering used by the verb `%v`. -/
def Duration.String (d : Int) : String := String.mk (Duration.format d)

/-! ## gorm.io/gorm/logger -/

namespace log

/-- `Silent LogLevel = iota + 1`. -/
def Silent : Int := 1

/-- The level after `Silent`. -/
def Error : Int := 2

/-- The level after `Error`. -/
def Warn : Int := 3

/-- The level after `Warn`, the highest one. -/
def Info : Int := 4

end log

/-! ## errors -/

/-- A non-nil Go error: gorm's sentinel `ErrRecordNotFound`, another error
without an `Unwrap` method, or an error that wraps one error. -/
inductive GoError where
  | ErrRecordNotFound : GoError
  | leaf (text : String) : GoError
  | wrap (text : String) (inner : GoError) : GoError
  deriving DecidableEq, Repr

/-- The method `Error()` of an error; the sentinel is
`errors.New("record not found")`. -/
def GoError.Error : GoError → String
  | .ErrRecordNotFound => "record not found"
  | .leaf text => text
  | .wrap text _ => text

/-- The loop of `errors.Is` on a non-nil error: compare, then unwrap. -/
def errors.is : GoError → GoError → Bool
  | .wrap text inner, target =>
    if GoError.wrap text inner = target then true else errors.is inner target
  | err, target => decide (err = target)

/-- `errors.Is(err, target)` for a non-nil `target`. -/
def errors.Is (err : Option GoError) (target : GoError) : Bool :=
  match err with
  | none => false
  | some e => errors.is e target

/-! ## zap -/

/-- The levels of `zapcore.Level`. -/
inductive Level where
  | DebugLevel | InfoLevel | WarnLevel | ErrorLevel | DPanicLevel | PanicLevel | FatalLevel
  deriving DecidableEq, Repr

/-- A `zap.Field`. The value of a float64 field is kept as the quotient it is
computed from: `Float64 key num den` stands for `float64(num) / den`. -/
inductive Field where
  | Float64 (key : String) (num : Int) (den : Nat) : Field
  | Int64 (key : String) (val : Int) : Field
  | String (key : String) (val : String) : Field
  deriving DecidableEq, Repr

/-- One call on a `*zap.Logger`: the sink it was made on, the severity of the
method called (`Debug`, `Warn`, `Error`), the message and the fields. -/
structure Record where
  sink : Nat
  level : Level
  msg : String
  fields : List Field
  deriving DecidableEq, Repr

/-- What a call of the adapter can observe and change: the reading of the
clock, the calls made on zap sinks so far (oldest first) and the number of
invocations of the query-info provider so far. -/
structure World where
  now : Int
  calls : List Record
  fcCalls : Nat
  deriving DecidableEq, Repr

/-- A call of a method of the sink `sink`. -/
def World.log (w : World) (sink : Nat) (level : Level) (msg : String)
    (fields : List Field) : World :=
  { w with calls := w.calls ++ [{ sink := sink, level := level, msg := msg, fields := fields }] }

/-- An invocation `fc()` of the provider: its result, and the world in which
the invocation is counted. -/
def World.call (w : World) (fc : Unit → String × Int) : (String × Int) × World :=
  (fc (), { w with fcCalls := w.fcCalls + 1 })

/-! ## the adapter -/

/-- The struct `Config`. -/
structure Config where
  SlowThreshold : Int
  Colorful : Bool
  IgnoreRecordNotFoundError : Bool
  Level : Int
  deriving DecidableEq, Repr

/-- The struct `Logger`: an embedded `Config` and the reference `logger` to a
zap sink. -/
structure Logger extends Config where
  logger : Nat
  deriving DecidableEq, Repr

/-- The heap of `Logger` values; a `*Logger` is an index into it. -/
abbrev Heap := List Logger

/-- `NewLogger(log)`: allocates `Logger{logger: log}`, every field of `Config`
having its zero value, and returns its address. -/
def NewLogger (log : Nat) (h : Heap) : Nat × Heap :=
  (h.length,
   h ++ [{ SlowThreshold := 0, Colorful := false, IgnoreRecordNotFoundError := false,
           Level := 0, logger := log }])

/-- `(*Logger).LogMode(level)`: copies `*l`, sets the `Level` of the copy and
returns the address of the copy. Dereferencing an address that holds no
logger (a nil receiver) panics: `none`. -/
def LogMode (l : Nat) (level : Int) (h : Heap) : Option (Nat × Heap) :=
  match h[l]? with
  | none => none
  | some v =>
    let clone : Logger := { v with Level := level }
    some (h.length, h ++ [clone])

/-- The text `err.Error()` of an error value; the call is made only where
`err != nil` has been checked. -/
def errText (err : Option GoError) : String :=
  match err with
  | some e => e.Error
  | none => ""

/-- `Logger.Trace(_, begin, fc, err)`. The three cases of the `switch` are the
three conditions of the chain, in the order of the source. -/
def Trace (l : Logger) (begin : Int) (fc : Unit → String × Int) (err : Option GoError)
    (w : World) : World :=
  if l.Level ≤ log.Silent then w
  else
    let elapsed := Since w.now begin
    if err ≠ none ∧ l.Level ≥ log.Error ∧
        (errors.Is err GoError.ErrRecordNotFound = false ∨
          l.IgnoreRecordNotFoundError = false) then
      let ((sql, rows), w) := w.call fc
      w.log l.logger Level.ErrorLevel (errText err)
        [Field.Float64 "time" elapsed 1000000, Field.Int64 "rows" rows, Field.String "sql" sql]
    else if elapsed > l.SlowThreshold ∧ l.SlowThreshold ≠ 0 ∧ l.Level ≥ log.Warn then
      let ((sql, rows), w) := w.call fc
      let slowLog := "SLOW SQL >= " ++ Duration.String l.SlowThreshold
      w.log l.logger Level.WarnLevel slowLog
        [Field.Float64 "time" elapsed 1000000, Field.Int64 "rows" rows, Field.String "sql" sql]
    else if l.Level = log.Info then
      let ((sql, rows), w) := w.call fc
      w.log l.logger Level.DebugLevel ""
        [Field.Float64 "time" elapsed 1000000, Field.Int64 "rows" rows, Field.String "sql" sql]
    else w

/-! ## observations of one call -/

/-- The calls made on the sink during a step from `before` to `after`. -/
def emitted (before after : World) : List Record :=
  after.calls.drop before.calls.length

/-- The record that `Trace` hands to the sink of `l`, at severity `level` and
with message `msg`, when the provider returns `fc ()`. -/
def traceRecord (l : Logger) (begin : Int) (fc : Unit → String × Int) (w : World)
    (level : Level) (msg : String) : Record :=
  { sink := l.logger, level := level, msg := msg,
    fields := [Field.Float64 "time" (Since w.now begin) 1000000,
               Field.Int64 "rows" (fc ()).2, Field.String "sql" (fc ()).1] }

/-- The condition of the first case of the `switch` of `Trace`. -/
def errorCase (l : Logger) (err : Option GoError) : Prop :=
  err ≠ none ∧ l.Level ≥ log.Error ∧
    (errors.Is err GoError.ErrRecordNotFound = false ∨ l.IgnoreRecordNotFoundError = false)

/-- The condition of the second case of the `switch` of `Trace`. -/
def slowCase (l : Logger) (elapsed : Int) : Prop :=
  elapsed > l.SlowThreshold ∧ l.SlowThreshold ≠ 0 ∧ l.Level ≥ log.Warn

instance (l : Logger) (err : Option GoError) : Decidable (errorCase l err) := by
  unfold errorCase; infer_instance

instance (l : Logger) (elapsed : Int) : Decidable (slowCase l elapsed) := by
  unfold slowCase; infer_instance

/-! ## the relays -/

/-- A call `Sugar().Debugf(template, args...)`, `Warnf` or `Errorf` on the sink
`sink`: one call at the severity of the method, its message being the template
formatted with the arguments and without structured fields. The formatting of
zap (`fmt.Sprintf` when there are arguments) is the parameter `format`; a Go
`interface{}` argument is a value of `α`. -/
def World.logf {α : Type} (w : World) (sink : Nat) (level : Level)
    (format : String → List α → String) (template : String) (args : List α) : World :=
  w.log sink level (format template args) []

/-- `Logger.Info(_, msg, args...)`: `l.logger.Sugar().Debugf(msg, args...)`. -/
def Logger.Info {α : Type} (l : Logger) (format : String → List α → String)
    (msg : String) (args : List α) (w : World) : World :=
  w.logf l.logger Level.DebugLevel format msg args

/-- `Logger.Warn(_, msg, args...)`: `l.logger.Sugar().Warnf(msg, args...)`. -/
def Logger.Warn {α : Type} (l : Logger) (format : String → List α → String)
    (msg : String) (args : List α) (w : World) : World :=
  w.logf l.logger Level.WarnLevel format msg args

/-- `Logger.Error(_, msg, args...)`: `l.logger.Sugar().Errorf(msg, args...)`. -/
def Logger.Error {α : Type} (l : Logger) (format : String → List α → String)
    (msg : String) (args : List α) (w : World) : World :=
  w.logf l.logger Level.ErrorLevel format msg args

/-! ## further observations -/

/-- The key of a `zap.Field`. -/
def fieldKey : Field → String
  | .Float64 key _ _ => key
  | .Int64 key _ => key
  | .String key _ => key

/-- A sequence of `LogMode` calls, each on the address the call before
returned, starting at the address `p`. -/
def LogModes : List Int → Nat → Heap → Option (Nat × Heap)
  | [], p, h => some (p, h)
  | level :: rest, p, h =>
    match LogMode p level h with
    | none => none
    | some (q, h2) => LogModes rest q h2

/-! ## concrete inputs -/

/-- A provider: the rendered query and the number of rows it affected. -/
def sampleFc : Unit → String × Int := fun _ => ("SELECT * FROM users", 3)

/-- A world in which nothing was logged yet and the clock reads 150ms. -/
def sampleWorld : World := { now := 150000000, calls := [], fcCalls := 0 }

/-- A logger on sink 7 with the given level, slow threshold and
ignore-not-found flag. -/
def sampleLogger (level : Int) (slow : Int) (ignore : Bool) : Logger :=
  { SlowThreshold := slow, Colorful := false, IgnoreRecordNotFoundError := ignore,
    Level := level, logger := 7 }

/-- A formatting function for the relays: the template followed by its
arguments. -/
def sampleFormat : String → List String → String :=
  fun template args => String.join (template :: args)

/-! ## the shape of a call of `Trace` -/

theorem Trace_eq (l : Logger) (begin : Int) (fc : Unit → String × Int)
    (err : Option GoError) (w : World) :
    Trace l begin fc err w =
      if errorCase l err then
        { w with calls := w.calls ++ [traceRecord l begin fc w Level.ErrorLevel (errText err)],
                 fcCalls := w.fcCalls + 1 }
      else if slowCase l (Since w.now begin) then
        { w with calls := w.calls ++ [traceRecord l begin fc w Level.WarnLevel
                   ("SLOW SQL >= " ++ Duration.String l.SlowThreshold)],
                 fcCalls := w.fcCalls + 1 }
      else if l.Level = log.Info then
        { w with calls := w.calls ++ [traceRecord l begin fc w Level.DebugLevel ""],
                 fcCalls := w.fcCalls + 1 }
      else w := by
  unfold Trace errorCase slowCase
  by_cases hs : l.Level ≤ log.Silent
  · have hs1 : l.Level ≤ 1 := hs
    have h1 : ¬ l.Level ≥ log.Error := by
      show ¬ l.Level ≥ 2
      omega
    have h2 : ¬ l.Level ≥ log.Warn := by
      show ¬ l.Level ≥ 3
      omega
    have h3 : ¬ l.Level = log.Info := by
      show ¬ l.Level = 4
      omega
    simp [hs, h1, h2, h3]
  · simp only [hs, if_false]
    split_ifs <;> rfl

theorem emitted_Trace (l : Logger) (begin : Int) (fc : Unit → String × Int)
    (err : Option GoError) (w : World) :
    emitted w (Trace l begin fc err w) =
      if errorCase l err then [traceRecord l begin fc w Level.ErrorLevel (errText err)]
      else if slowCase l (Since w.now begin) then
        [traceRecord l begin fc w Level.WarnLevel
          ("SLOW SQL >= " ++ Duration.String l.SlowThreshold)]
      else if l.Level = log.Info then [traceRecord l begin fc w Level.DebugLevel ""]
      else [] := by
  rw [Trace_eq]
  unfold emitted
  split_ifs <;> simp

theorem Trace_calls (l : Logger) (begin : Int) (fc : Unit → String × Int)
    (err : Option GoError) (w : World) :
    (Trace l begin fc err w).calls = w.calls ++ emitted w (Trace l begin fc err w) := by
  rw [emitted_Trace, Trace_eq]
  split_ifs <;> simp

theorem Trace_fcCalls (l : Logger) (begin : Int) (fc : Unit → String × Int)
    (err : Option GoError) (w : World) :
    (Trace l begin fc err w).fcCalls = w.fcCalls + (emitted w (Trace l begin fc err w)).length := by
  rw [emitted_Trace, Trace_eq]
  split_ifs <;> simp

theorem Trace_silent (l : Logger) (begin : Int) (fc : Unit → String × Int)
    (err : Option GoError) (w : World) (h : l.Level ≤ log.Silent) :
    Trace l begin fc err w = w := by
  unfold Trace
  simp [h]

theorem emitted_ne_nil_iff (l : Logger) (begin : Int) (fc : Unit → String × Int)
    (err : Option GoError) (w : World) :
    emitted w (Trace l begin fc err w) ≠ [] ↔
      (errorCase l err ∨ slowCase l (Since w.now begin) ∨ l.Level = log.Info) := by
  rw [emitted_Trace]
  by_cases h1 : errorCase l err
  · simp [h1]
  · by_cases h2 : slowCase l (Since w.now begin)
    · simp [h1, h2]
    · by_cases h3 : l.Level = log.Info
      · simp [h1, h2, h3]
      · simp [h1, h2, h3]

theorem LogMode_eq (h : Heap) (p : Nat) (l : Logger) (x : Int) (hp : h[p]? = some l) :
    LogMode p x h = some (h.length, h ++ [{ l with Level := x }]) := by
  simp [LogMode, hp]

theorem LogModes_keeps (levels : List Int) :
    ∀ (p : Nat) (h : Heap) (l : Logger), h[p]? = some l →
      ∃ q h2 l2, LogModes levels p h = some (q, h2) ∧ h2[q]? = some l2 ∧
        l2.SlowThreshold = l.SlowThreshold ∧ l2.Colorful = l.Colorful ∧
        l2.IgnoreRecordNotFoundError = l.IgnoreRecordNotFoundError ∧
        l2.logger = l.logger := by
  induction levels with
  | nil =>
    intro p h l hp
    exact ⟨p, h, l, rfl, hp, rfl, rfl, rfl, rfl⟩
  | cons x rest ih =>
    intro p h l hp
    have hq : (h ++ [{ l with Level := x }])[h.length]? = some { l with Level := x } := by
      simp
    obtain ⟨q, h2, l2, e1, e2, e3, e4, e5, e6⟩ := ih h.length _ _ hq
    refine ⟨q, h2, l2, ?_, e2, e3, e4, e5, e6⟩
    simp only [LogModes, LogMode_eq h p l x hp]
    exact e1

/-! ## the error case -/

/-- C1: Trace hands the sink a record at Error severity exactly when an error
is present, Level >= Error, and the error is not record-not-found or
IgnoreRecordNotFoundError is false; that record carries the text of the error
as its message. At Level = Error with the flag off a record-not-found error is
logged as the one record of the call, and below Error no Error record is
emitted. -/
theorem C1_error_record (l : Logger) (begin : Int) (fc : Unit → String × Int)
    (err : Option GoError) (w : World) :
    ((∃ r ∈ emitted w (Trace l begin fc err w), r.level = Level.ErrorLevel) ↔
      (err ≠ none ∧ l.Level ≥ log.Error ∧
        (errors.Is err GoError.ErrRecordNotFound = false ∨
          l.IgnoreRecordNotFoundError = false))) ∧
    (∀ e : GoError, err = some e →
      ∀ r ∈ emitted w (Trace l begin fc err w), r.level = Level.ErrorLevel → r.msg = e.Error) ∧
    (∀ e : GoError, err = some e → l.Level = log.Error →
      l.IgnoreRecordNotFoundError = false → errors.Is err GoError.ErrRecordNotFound = true →
      emitted w (Trace l begin fc err w) =
        [traceRecord l begin fc w Level.ErrorLevel e.Error]) ∧
    (l.Level < log.Error →
      ∀ r ∈ emitted w (Trace l begin fc err w), r.level ≠ Level.ErrorLevel) := by
  have key := emitted_Trace l begin fc err w
  refine ⟨?_, ?_, ?_, ?_⟩
  · constructor
    · rintro ⟨r, hr, hlev⟩
      by_cases hc : errorCase l err
      · exact hc
      · rw [key, if_neg hc] at hr
        split_ifs at hr <;> simp at hr <;> subst hr <;> simp [traceRecord] at hlev
    · intro hc
      have hc1 : errorCase l err := hc
      rw [key, if_pos hc1]
      exact ⟨_, List.mem_singleton_self _, rfl⟩
  · intro e he r hr hlev
    subst he
    rw [key] at hr
    split_ifs at hr <;> simp at hr <;> subst hr <;> simp [traceRecord] at hlev
    simp [traceRecord, errText]
  · intro e he hl hi _
    subst he
    have hc : errorCase l (some e) :=
      ⟨by simp, by rw [hl], Or.inr hi⟩
    rw [key, if_pos hc]
    rfl
  · intro hl r hr
    have hc : ¬ errorCase l err := fun hc => absurd hc.2.1 (not_le.mpr hl)
    rw [key, if_neg hc] at hr
    split_ifs at hr <;> simp at hr <;> subst hr <;> simp [traceRecord]

/-- C1, at a concrete call: Level = Error, the flag off, and gorm's
record-not-found error. -/
theorem C1_error_record_witness :
    emitted sampleWorld
        (Trace (sampleLogger log.Error 0 false) 0 sampleFc (some GoError.ErrRecordNotFound)
          sampleWorld) =
      [traceRecord (sampleLogger log.Error 0 false) 0 sampleFc sampleWorld Level.ErrorLevel
        "record not found"] :=
  (C1_error_record (sampleLogger log.Error 0 false) 0 sampleFc
    (some GoError.ErrRecordNotFound) sampleWorld).2.2.1
    GoError.ErrRecordNotFound rfl rfl rfl rfl

/-! ## the slow-query case -/

/-- C2: when the error case does not match, Trace hands the sink a record at
Warn severity exactly when SlowThreshold is nonzero, elapsed > SlowThreshold
and Level >= Warn; its message is "SLOW SQL >= " followed by the rendering of
SlowThreshold. With no error, a threshold of 100ms, 150ms elapsed and
Level = Warn the call emits the single record "SLOW SQL >= 100ms" at Warn
severity. -/
theorem C2_slow_record (l : Logger) (begin : Int) (fc : Unit → String × Int)
    (err : Option GoError) (w : World)
    (hne : ¬ (err ≠ none ∧ l.Level ≥ log.Error ∧
        (errors.Is err GoError.ErrRecordNotFound = false ∨
          l.IgnoreRecordNotFoundError = false))) :
    ((∃ r ∈ emitted w (Trace l begin fc err w), r.level = Level.WarnLevel) ↔
      (l.SlowThreshold ≠ 0 ∧ Since w.now begin > l.SlowThreshold ∧ l.Level ≥ log.Warn)) ∧
    (∀ r ∈ emitted w (Trace l begin fc err w), r.level = Level.WarnLevel →
      r.msg = "SLOW SQL >= " ++ Duration.String l.SlowThreshold) ∧
    (err = none → l.SlowThreshold = 100000000 → Since w.now begin = 150000000 →
      l.Level = log.Warn →
      emitted w (Trace l begin fc err w) =
        [traceRecord l begin fc w Level.WarnLevel "SLOW SQL >= 100ms"]) := by
  have hc : ¬ errorCase l err := hne
  have key := emitted_Trace l begin fc err w
  rw [if_neg hc] at key
  refine ⟨?_, ?_, ?_⟩
  · constructor
    · rintro ⟨r, hr, hlev⟩
      by_cases hs : slowCase l (Since w.now begin)
      · exact ⟨hs.2.1, hs.1, hs.2.2⟩
      · rw [key, if_neg hs] at hr
        split_ifs at hr <;> simp at hr
        subst hr
        simp [traceRecord] at hlev
    · rintro ⟨h0, hgt, hlv⟩
      have hs : slowCase l (Since w.now begin) := ⟨hgt, h0, hlv⟩
      rw [key, if_pos hs]
      exact ⟨_, List.mem_singleton_self _, rfl⟩
  · intro r hr hlev
    rw [key] at hr
    split_ifs at hr <;> simp at hr <;> subst hr
    · rfl
    · simp [traceRecord] at hlev
  · intro _ hthr hel hlv
    have hs : slowCase l (Since w.now begin) := by
      refine ⟨?_, ?_, ?_⟩
      · rw [hthr, hel]; decide
      · rw [hthr]; decide
      · rw [hlv]
    rw [key, if_pos hs, hthr]
    have hd : Duration.String 100000000 = "100ms" := by decide
    rw [hd]
    rfl

/-- C2, at a concrete call: no error, a threshold of 100ms, 150ms elapsed and
Level = Warn. -/
theorem C2_slow_record_witness :
    emitted sampleWorld
        (Trace (sampleLogger log.Warn 100000000 false) 0 sampleFc none sampleWorld) =
      [{ sink := 7, level := Level.WarnLevel, msg := "SLOW SQL >= 100ms",
         fields := [Field.Float64 "time" 150000000 1000000, Field.Int64 "rows" 3,
                    Field.String "sql" "SELECT * FROM users"] }] :=
  (C2_slow_record (sampleLogger log.Warn 100000000 false) 0 sampleFc none sampleWorld
    (by simp)).2.2 rfl rfl (by decide) rfl

/-! ## the verbose case -/

/-- C3: when neither the error case nor the slow-query case matches, Trace
emits a record exactly when Level is Info, and that record is the only one, at
Debug severity with the empty message; at every other Level the call changes
nothing. -/
theorem C3_verbose_record (l : Logger) (begin : Int) (fc : Unit → String × Int)
    (err : Option GoError) (w : World)
    (hne : ¬ (err ≠ none ∧ l.Level ≥ log.Error ∧
        (errors.Is err GoError.ErrRecordNotFound = false ∨
          l.IgnoreRecordNotFoundError = false)))
    (hns : ¬ (Since w.now begin > l.SlowThreshold ∧ l.SlowThreshold ≠ 0 ∧
        l.Level ≥ log.Warn)) :
    (emitted w (Trace l begin fc err w) ≠ [] ↔ l.Level = log.Info) ∧
    (l.Level = log.Info →
      emitted w (Trace l begin fc err w) = [traceRecord l begin fc w Level.DebugLevel ""]) ∧
    (l.Level ≠ log.Info → Trace l begin fc err w = w) := by
  have hc : ¬ errorCase l err := hne
  have hs : ¬ slowCase l (Since w.now begin) := hns
  have key := emitted_Trace l begin fc err w
  have keyT := Trace_eq l begin fc err w
  rw [if_neg hc, if_neg hs] at key keyT
  refine ⟨?_, ?_, ?_⟩
  · rw [key]
    split_ifs with hi <;> simp [hi]
  · intro hi
    rw [key, if_pos hi]
  · intro hi
    rw [keyT, if_neg hi]

/-- C3, at a concrete call: no error, 150ms elapsed under a threshold of 200ms
and Level = Info. -/
theorem C3_verbose_record_witness :
    emitted sampleWorld
        (Trace (sampleLogger log.Info 200000000 false) 0 sampleFc none sampleWorld) =
      [{ sink := 7, level := Level.DebugLevel, msg := "",
         fields := [Field.Float64 "time" 150000000 1000000, Field.Int64 "rows" 3,
                    Field.String "sql" "SELECT * FROM users"] }] :=
  (C3_verbose_record (sampleLogger log.Info 200000000 false) 0 sampleFc none sampleWorld
    (by simp) (by decide)).2.1 rfl

/-! ## precedence of the cases -/

/-- C4: when the condition of the error case and the condition of the
slow-query case both hold, Trace emits exactly one record, at Error severity
with the text of the error, and no Warn or Debug record. In general the
records of a call are those of the first case that matches, in the order
error, slow, verbose, and of no other case. -/
theorem C4_first_case_wins (l : Logger) (begin : Int) (fc : Unit → String × Int)
    (err : Option GoError) (w : World) :
    ((err ≠ none ∧ l.Level ≥ log.Error ∧
        (errors.Is err GoError.ErrRecordNotFound = false ∨
          l.IgnoreRecordNotFoundError = false)) →
      (l.SlowThreshold ≠ 0 ∧ Since w.now begin > l.SlowThreshold ∧ l.Level ≥ log.Warn) →
      (Trace l begin fc err w).calls =
          w.calls ++ [traceRecord l begin fc w Level.ErrorLevel (errText err)] ∧
        ∀ r ∈ emitted w (Trace l begin fc err w),
          r.level ≠ Level.WarnLevel ∧ r.level ≠ Level.DebugLevel) ∧
    emitted w (Trace l begin fc err w) =
      (if err ≠ none ∧ l.Level ≥ log.Error ∧
          (errors.Is err GoError.ErrRecordNotFound = false ∨
            l.IgnoreRecordNotFoundError = false) then
        [traceRecord l begin fc w Level.ErrorLevel (errText err)]
      else if l.SlowThreshold ≠ 0 ∧ Since w.now begin > l.SlowThreshold ∧
          l.Level ≥ log.Warn then
        [traceRecord l begin fc w Level.WarnLevel
          ("SLOW SQL >= " ++ Duration.String l.SlowThreshold)]
      else if l.Level = log.Info then [traceRecord l begin fc w Level.DebugLevel ""]
      else []) := by
  have key := emitted_Trace l begin fc err w
  constructor
  · intro he _
    have hc : errorCase l err := he
    rw [Trace_calls, key, if_pos hc]
    refine ⟨rfl, ?_⟩
    intro r hr
    simp at hr
    subst hr
    simp [traceRecord]
  · rw [key]
    unfold errorCase slowCase
    split_ifs <;> first | rfl | (exfalso; tauto)

/-- C4, at a concrete call: an error on a query that is also slow, at
Level = Info. -/
theorem C4_first_case_wins_witness :
    (Trace (sampleLogger log.Info 100000000 false) 0 sampleFc (some (GoError.leaf "boom"))
        sampleWorld).calls =
      [{ sink := 7, level := Level.ErrorLevel, msg := "boom",
         fields := [Field.Float64 "time" 150000000 1000000, Field.Int64 "rows" 3,
                    Field.String "sql" "SELECT * FROM users"] }] :=
  ((C4_first_case_wins (sampleLogger log.Info 100000000 false) 0 sampleFc
    (some (GoError.leaf "boom")) sampleWorld).1 (by decide) (by decide)).1

/-! ## the Silent level -/

/-- C5: at Level = Silent, Trace leaves the world as it is, whatever the start
time, the error, SlowThreshold and the provider: no record is handed to the
sink and the provider is not invoked. -/
theorem C5_silent_no_effect (l : Logger) (begin : Int) (fc : Unit → String × Int)
    (err : Option GoError) (w : World) (h : l.Level = log.Silent) :
    Trace l begin fc err w = w ∧
      emitted w (Trace l begin fc err w) = [] ∧
      (Trace l begin fc err w).calls = w.calls ∧
      (Trace l begin fc err w).fcCalls = w.fcCalls := by
  have ht : Trace l begin fc err w = w := Trace_silent l begin fc err w (le_of_eq h)
  rw [ht]
  simp [emitted]

/-- C5, at a concrete call: a slow query with an error, at Level = Silent. -/
theorem C5_silent_no_effect_witness :
    (sampleLogger log.Silent 100000000 false).Level = log.Silent ∧
    Trace (sampleLogger log.Silent 100000000 false) 0 sampleFc (some (GoError.leaf "boom"))
        sampleWorld = sampleWorld :=
  ⟨rfl, (C5_silent_no_effect (sampleLogger log.Silent 100000000 false) 0 sampleFc
    (some (GoError.leaf "boom")) sampleWorld rfl).1⟩

/-! ## the provider -/

/-- C6: in every call of Trace the number of invocations of the provider is
the number of records handed to the sink, and that number is 0 or 1; the
records are appended to the calls made before. -/
theorem C6_provider_once (l : Logger) (begin : Int) (fc : Unit → String × Int)
    (err : Option GoError) (w : World) :
    (Trace l begin fc err w).fcCalls =
        w.fcCalls + (emitted w (Trace l begin fc err w)).length ∧
      (Trace l begin fc err w).calls = w.calls ++ emitted w (Trace l begin fc err w) ∧
      ((emitted w (Trace l begin fc err w)).length = 0 ∨
        (emitted w (Trace l begin fc err w)).length = 1) := by
  refine ⟨Trace_fcCalls l begin fc err w, Trace_calls l begin fc err w, ?_⟩
  rw [emitted_Trace]
  split_ifs <;> simp

/-- C6, at a concrete call: a verbose trace invokes the provider once. -/
theorem C6_provider_once_witness :
    (Trace (sampleLogger log.Info 0 false) 0 sampleFc none sampleWorld).fcCalls =
      0 + (emitted sampleWorld
        (Trace (sampleLogger log.Info 0 false) 0 sampleFc none sampleWorld)).length :=
  (C6_provider_once (sampleLogger log.Info 0 false) 0 sampleFc none sampleWorld).1

/-! ## record-not-found errors -/

/-- C7: when the error is a record-not-found error and
IgnoreRecordNotFoundError is true, Trace emits no record at Error severity and
does exactly what the same call without an error does, at every Level, elapsed
time and SlowThreshold; at Level = Error it does nothing. -/
theorem C7_not_found_suppressed (l : Logger) (begin : Int) (fc : Unit → String × Int)
    (err : Option GoError) (w : World)
    (hnf : errors.Is err GoError.ErrRecordNotFound = true)
    (hig : l.IgnoreRecordNotFoundError = true) :
    (∀ r ∈ emitted w (Trace l begin fc err w), r.level ≠ Level.ErrorLevel) ∧
      Trace l begin fc err w = Trace l begin fc none w ∧
      (l.Level = log.Error → Trace l begin fc err w = w) := by
  have hc : ¬ errorCase l err := by
    rintro ⟨_, _, h | h⟩
    · rw [hnf] at h; cases h
    · rw [hig] at h; cases h
  have hn : ¬ errorCase l none := fun h => h.1 rfl
  have key := emitted_Trace l begin fc err w
  have keyT := Trace_eq l begin fc err w
  have keyN := Trace_eq l begin fc none w
  rw [if_neg hc] at key keyT
  rw [if_neg hn] at keyN
  refine ⟨?_, ?_, ?_⟩
  · intro r hr
    rw [key] at hr
    split_ifs at hr <;> simp at hr <;> subst hr <;> simp [traceRecord]
  · rw [keyT, keyN]
  · intro hl
    have hs : ¬ slowCase l (Since w.now begin) := by
      rintro ⟨_, _, h⟩
      rw [hl] at h
      exact absurd h (by decide)
    have hi : ¬ l.Level = log.Info := by
      rw [hl]; decide
    rw [keyT, if_neg hs, if_neg hi]

/-- C7, at a concrete call: a wrapped record-not-found error on a slow query,
at Level = Info with the flag on, is logged as a slow query. -/
theorem C7_not_found_suppressed_witness :
    errors.Is (some (GoError.wrap "find user: record not found" GoError.ErrRecordNotFound))
        GoError.ErrRecordNotFound = true ∧
    Trace (sampleLogger log.Info 100000000 true) 0 sampleFc
        (some (GoError.wrap "find user: record not found" GoError.ErrRecordNotFound))
        sampleWorld =
      Trace (sampleLogger log.Info 100000000 true) 0 sampleFc none sampleWorld :=
  ⟨by decide,
   (C7_not_found_suppressed (sampleLogger log.Info 100000000 true) 0 sampleFc
    (some (GoError.wrap "find user: record not found" GoError.ErrRecordNotFound))
    sampleWorld (by decide) rfl).2.1⟩

/-! ## a zero threshold -/

/-- C8: with no error and SlowThreshold = 0, Trace emits no record at Warn
severity whatever the elapsed time is, and if moreover Level is not Info it
emits nothing and does not invoke the provider. -/
theorem C8_zero_threshold (l : Logger) (begin : Int) (fc : Unit → String × Int)
    (w : World) (h0 : l.SlowThreshold = 0) :
    (∀ r ∈ emitted w (Trace l begin fc none w), r.level ≠ Level.WarnLevel) ∧
      (l.Level ≠ log.Info → Trace l begin fc none w = w) := by
  have hn : ¬ errorCase l none := fun h => h.1 rfl
  have hs : ¬ slowCase l (Since w.now begin) := fun h => h.2.1 h0
  have key := emitted_Trace l begin fc none w
  have keyT := Trace_eq l begin fc none w
  rw [if_neg hn, if_neg hs] at key keyT
  constructor
  · intro r hr
    rw [key] at hr
    split_ifs at hr <;> simp at hr
    subst hr
    simp [traceRecord]
  · intro hi
    rw [keyT, if_neg hi]

/-- C8, at a concrete call: 150ms elapsed, threshold 0, Level = Warn. -/
theorem C8_zero_threshold_witness :
    (sampleLogger log.Warn 0 false).SlowThreshold = 0 ∧
    Trace (sampleLogger log.Warn 0 false) 0 sampleFc none sampleWorld = sampleWorld :=
  ⟨rfl, (C8_zero_threshold (sampleLogger log.Warn 0 false) 0 sampleFc sampleWorld rfl).2
    (by decide)⟩

/-! ## NewLogger and LogMode -/

/-- C9: the logger that NewLogger allocates has Level 0, and Trace on it leaves
the world as it is (no record, no invocation of the provider) for every start
time, error and provider; once LogMode has set the level Info on a copy, Trace
on the copy emits one record. -/
theorem C9_new_logger_silent (sink : Nat) (h : Heap) (begin : Int)
    (fc : Unit → String × Int) (err : Option GoError) (w : World) :
    ∃ l, (NewLogger sink h).2[(NewLogger sink h).1]? = some l ∧ l.Level = 0 ∧
      l.logger = sink ∧
      Trace l begin fc err w = w ∧
      ∃ q h2 l2, LogMode (NewLogger sink h).1 log.Info (NewLogger sink h).2 = some (q, h2) ∧
        h2[q]? = some l2 ∧ (emitted w (Trace l2 begin fc err w)).length = 1 ∧
        (Trace l2 begin fc err w).fcCalls = w.fcCalls + 1 := by
  refine ⟨{ SlowThreshold := 0, Colorful := false, IgnoreRecordNotFoundError := false,
            Level := 0, logger := sink }, ?_, rfl, rfl, ?_, ?_⟩
  · simp [NewLogger]
  · exact Trace_silent _ begin fc err w (show (0 : Int) ≤ 1 by decide)
  · refine ⟨h.length + 1,
      (h ++ [{ SlowThreshold := 0, Colorful := false, IgnoreRecordNotFoundError := false,
               Level := 0, logger := sink }]) ++
        [{ SlowThreshold := 0, Colorful := false, IgnoreRecordNotFoundError := false,
           Level := log.Info, logger := sink }],
      { SlowThreshold := 0, Colorful := false, IgnoreRecordNotFoundError := false,
        Level := log.Info, logger := sink }, ?_, ?_, ?_⟩
    · simp [NewLogger, LogMode]
    · rw [List.getElem?_append_right (by simp)]
      simp
    · have hlen : (emitted w (Trace
          { SlowThreshold := 0, Colorful := false, IgnoreRecordNotFoundError := false,
            Level := log.Info, logger := sink } begin fc err w)).length = 1 := by
        rw [emitted_Trace]
        split_ifs <;> simp_all
      exact ⟨hlen, by rw [Trace_fcCalls, hlen]⟩

/-- C9, at a concrete call: a fresh logger on sink 7 ignores an error. -/
theorem C9_new_logger_silent_witness :
    ∃ l, (NewLogger 7 []).2[(NewLogger 7 []).1]? = some l ∧ l.Level = 0 ∧
      l.logger = 7 ∧
      Trace l 0 sampleFc (some (GoError.leaf "boom")) sampleWorld = sampleWorld ∧
      ∃ q h2 l2, LogMode (NewLogger 7 []).1 log.Info (NewLogger 7 []).2 = some (q, h2) ∧
        h2[q]? = some l2 ∧
        (emitted sampleWorld
          (Trace l2 0 sampleFc (some (GoError.leaf "boom")) sampleWorld)).length = 1 ∧
        (Trace l2 0 sampleFc (some (GoError.leaf "boom")) sampleWorld).fcCalls =
          sampleWorld.fcCalls + 1 :=
  C9_new_logger_silent 7 [] 0 sampleFc (some (GoError.leaf "boom")) sampleWorld

/-- C10: LogMode(x) on the address of a logger l returns the address of a new
logger whose Level is x and whose SlowThreshold, Colorful,
IgnoreRecordNotFoundError and sink reference are those of l; the logger at the
address of l, and every logger of the heap, is the same after the call as
before. -/
theorem C10_log_mode_clone (h : Heap) (p : Nat) (l : Logger) (x : Int)
    (hp : h[p]? = some l) :
    ∃ q h2 c, LogMode p x h = some (q, h2) ∧ h2[q]? = some c ∧
      c.Level = x ∧ c.SlowThreshold = l.SlowThreshold ∧ c.Colorful = l.Colorful ∧
      c.IgnoreRecordNotFoundError = l.IgnoreRecordNotFoundError ∧ c.logger = l.logger ∧
      q ≠ p ∧ h2[p]? = some l ∧ (∀ (a : Nat) (v : Logger), h[a]? = some v → h2[a]? = some v) := by
  have hlt : p < h.length := by
    rcases List.getElem?_eq_some.mp hp with ⟨hlt, _⟩
    exact hlt
  refine ⟨h.length, h ++ [{ l with Level := x }], { l with Level := x }, ?_, ?_,
    rfl, rfl, rfl, rfl, rfl, ?_, ?_, ?_⟩
  · simp [LogMode, hp]
  · simp
  · omega
  · rw [List.getElem?_append_left hlt]
    exact hp
  · intro a v ha
    have hlt2 : a < h.length := by
      rcases List.getElem?_eq_some.mp ha with ⟨hlt2, _⟩
      exact hlt2
    rw [List.getElem?_append_left hlt2]
    exact ha

/-- C10, at a concrete call: LogMode(Info) on a logger configured with a
threshold of 100ms and the ignore flag on. -/
theorem C10_log_mode_clone_witness :
    [sampleLogger log.Warn 100000000 true][0]? = some (sampleLogger log.Warn 100000000 true) ∧
    ∃ q h2 c, LogMode 0 log.Info [sampleLogger log.Warn 100000000 true] = some (q, h2) ∧
      h2[q]? = some c ∧
      c.Level = log.Info ∧
      c.SlowThreshold = (sampleLogger log.Warn 100000000 true).SlowThreshold ∧
      c.Colorful = (sampleLogger log.Warn 100000000 true).Colorful ∧
      c.IgnoreRecordNotFoundError =
        (sampleLogger log.Warn 100000000 true).IgnoreRecordNotFoundError ∧
      c.logger = (sampleLogger log.Warn 100000000 true).logger ∧
      q ≠ 0 ∧ [sampleLogger log.Warn 100000000 true][0]? =
        some (sampleLogger log.Warn 100000000 true) ∧ True :=
  ⟨rfl, by
    obtain ⟨q, h2, c, h1, h3, h4, h5, h6, h7, h8, h9, _, _⟩ :=
      C10_log_mode_clone [sampleLogger log.Warn 100000000 true] 0
        (sampleLogger log.Warn 100000000 true) log.Info rfl
    exact ⟨q, h2, c, h1, h3, h4, h5, h6, h7, h8, h9, rfl, trivial⟩⟩

/-- C11: LogMode(A) followed by LogMode(B) on the result yields a logger equal
to l with Level = B (the same configuration and sink), so Trace on it does
what Trace on a logger built with Level = B and the other fields of l does,
for every event; the logger at the address of l is unchanged after either
call. -/
theorem C11_log_mode_twice (h : Heap) (p : Nat) (l : Logger) (A B : Int)
    (hp : h[p]? = some l) :
    ∃ q1 h1 q2 h2 c, LogMode p A h = some (q1, h1) ∧ LogMode q1 B h1 = some (q2, h2) ∧
      h2[q2]? = some c ∧ c = { l with Level := B } ∧
      (∀ (begin : Int) (fc : Unit → String × Int) (err : Option GoError) (w : World),
        Trace c begin fc err w = Trace { l with Level := B } begin fc err w) ∧
      h1[p]? = some l ∧ h2[p]? = some l := by
  have hlt : p < h.length := by
    rcases List.getElem?_eq_some.mp hp with ⟨hlt, _⟩
    exact hlt
  have h1q : (h ++ [{ l with Level := A }])[h.length]? = some { l with Level := A } := by
    simp
  refine ⟨h.length, h ++ [{ l with Level := A }], h.length + 1,
    (h ++ [{ l with Level := A }]) ++ [{ l with Level := B }], { l with Level := B },
    ?_, ?_, ?_, rfl, fun _ _ _ _ => rfl, ?_, ?_⟩
  · simp [LogMode, hp]
  · simp only [LogMode, h1q]
    simp
  · rw [List.getElem?_append_right (by simp)]
    simp
  · rw [List.getElem?_append_left hlt]
    exact hp
  · rw [List.getElem?_append_left (by simp; omega), List.getElem?_append_left hlt]
    exact hp

/-- C11, at a concrete call: LogMode(Silent) then LogMode(Info) on a logger
configured at Level = Warn. -/
theorem C11_log_mode_twice_witness :
    [sampleLogger log.Warn 100000000 true][0]? = some (sampleLogger log.Warn 100000000 true) ∧
    ∃ q1 h1 q2 h2 c,
      LogMode 0 log.Silent [sampleLogger log.Warn 100000000 true] = some (q1, h1) ∧
      LogMode q1 log.Info h1 = some (q2, h2) ∧ h2[q2]? = some c ∧
      c = sampleLogger log.Info 100000000 true ∧
      h2[0]? = some (sampleLogger log.Warn 100000000 true) :=
  ⟨rfl, by
    obtain ⟨q1, h1, q2, h2, c, e1, e2, e3, e4, _, _, e7⟩ :=
      C11_log_mode_twice [sampleLogger log.Warn 100000000 true] 0
        (sampleLogger log.Warn 100000000 true) log.Silent log.Info rfl
    exact ⟨q1, h1, q2, h2, c, e1, e2, e3, e4, e7⟩⟩

/-! ## the relays -/

/-- C12: whatever the Level, SlowThreshold and IgnoreRecordNotFoundError of the
logger are, Info makes exactly one call on the sink, at Debug severity, with
the formatted message; Warn one at Warn severity; Error one at Error severity.
The provider count is untouched, and two loggers on the same sink relay
alike. -/
theorem C12_relays_unconditional {α : Type} (l : Logger)
    (format : String → List α → String) (msg : String) (args : List α) (w : World) :
    (l.Info format msg args w).calls =
        w.calls ++ [{ sink := l.logger, level := Level.DebugLevel,
                      msg := format msg args, fields := [] }] ∧
    (l.Warn format msg args w).calls =
        w.calls ++ [{ sink := l.logger, level := Level.WarnLevel,
                      msg := format msg args, fields := [] }] ∧
    (l.Error format msg args w).calls =
        w.calls ++ [{ sink := l.logger, level := Level.ErrorLevel,
                      msg := format msg args, fields := [] }] ∧
    (l.Info format msg args w).fcCalls = w.fcCalls ∧
    (l.Warn format msg args w).fcCalls = w.fcCalls ∧
    (l.Error format msg args w).fcCalls = w.fcCalls ∧
    (∀ l2 : Logger, l2.logger = l.logger →
      l2.Info format msg args w = l.Info format msg args w ∧
      l2.Warn format msg args w = l.Warn format msg args w ∧
      l2.Error format msg args w = l.Error format msg args w) := by
  refine ⟨rfl, rfl, rfl, rfl, rfl, rfl, ?_⟩
  intro l2 hl
  simp [Logger.Info, Logger.Warn, Logger.Error, hl]

/-- C12, at a concrete call: Info on a logger at Level = Silent. -/
theorem C12_relays_unconditional_witness :
    ((sampleLogger log.Silent 0 false).Info sampleFormat "hello " ["gorm"] sampleWorld).calls =
      [{ sink := 7, level := Level.DebugLevel, msg := "hello gorm", fields := [] }] :=
  (C12_relays_unconditional (sampleLogger log.Silent 0 false) sampleFormat "hello " ["gorm"]
    sampleWorld).1

/-! ## the fields of a record -/

/-- C13: every record that Trace emits, in whichever case, carries the field
rows with the row count returned by the provider and the field sql with the
query text returned by the provider, after one first field. -/
theorem C13_rows_sql_from_provider (l : Logger) (begin : Int) (fc : Unit → String × Int)
    (err : Option GoError) (w : World) :
    ∀ r ∈ emitted w (Trace l begin fc err w),
      ∃ t, r.fields = [t, Field.Int64 "rows" (fc ()).2, Field.String "sql" (fc ()).1] := by
  intro r hr
  rw [emitted_Trace] at hr
  split_ifs at hr <;> simp at hr <;> subst hr <;> exact ⟨_, rfl⟩

/-- C13, at a concrete call: the Warn record of a slow query carries the row
count and the query text of the sample provider. -/
theorem C13_rows_sql_from_provider_witness :
    ∃ t, (traceRecord (sampleLogger log.Info 100000000 false) 0 sampleFc sampleWorld
        Level.WarnLevel "SLOW SQL >= 100ms").fields =
      [t, Field.Int64 "rows" 3, Field.String "sql" "SELECT * FROM users"] :=
  C13_rows_sql_from_provider (sampleLogger log.Info 100000000 false) 0 sampleFc none
    sampleWorld
    (traceRecord (sampleLogger log.Info 100000000 false) 0 sampleFc sampleWorld
      Level.WarnLevel "SLOW SQL >= 100ms")
    (by decide)

/-! ## verbosity -/

/-- C14: for a fixed event, SlowThreshold and IgnoreRecordNotFoundError, and
levels L <= L2 with L2 among Silent, Error, Warn and Info (L may be any level,
in particular one of these four), if Trace emits a record at Level L then it
emits a record at Level L2. -/
theorem C14_level_monotone (l : Logger) (L L2 : Int) (begin : Int)
    (fc : Unit → String × Int) (err : Option GoError) (w : World)
    (hL2 : L2 = log.Silent ∨ L2 = log.Error ∨ L2 = log.Warn ∨ L2 = log.Info)
    (hle : L ≤ L2)
    (hem : emitted w (Trace { l with Level := L } begin fc err w) ≠ []) :
    emitted w (Trace { l with Level := L2 } begin fc err w) ≠ [] := by
  rw [emitted_ne_nil_iff] at hem ⊢
  rcases hem with ⟨hn, hlv, hnf⟩ | ⟨hgt, h0, hlv⟩ | hi
  · exact Or.inl ⟨hn, le_trans hlv hle, hnf⟩
  · exact Or.inr (Or.inl ⟨hgt, h0, le_trans hlv hle⟩)
  · have hi2 : L = log.Info := hi
    refine Or.inr (Or.inr ?_)
    show L2 = log.Info
    rw [hi2] at hle
    rcases hL2 with h | h | h | h
    · rw [h] at hle; exact absurd hle (by decide)
    · rw [h] at hle; exact absurd hle (by decide)
    · rw [h] at hle; exact absurd hle (by decide)
    · exact h

/-- C14, at a concrete call: a slow query logged at Level = Warn is logged at
Level = Info. -/
theorem C14_level_monotone_witness :
    emitted sampleWorld
        (Trace { sampleLogger 0 100000000 false with Level := log.Warn } 0 sampleFc none
          sampleWorld) ≠ [] ∧
    emitted sampleWorld
        (Trace { sampleLogger 0 100000000 false with Level := log.Info } 0 sampleFc none
          sampleWorld) ≠ [] :=
  ⟨by decide,
   C14_level_monotone (sampleLogger 0 100000000 false) log.Warn log.Info 0 sampleFc none
    sampleWorld (Or.inr (Or.inr (Or.inr rfl))) (by decide) (by decide)⟩

/-! ## the three fields -/

/-- C15, as stated, fails: the first field of a record of Trace is keyed
time, so the keys of the verbose record of the sample call are not time_ms,
rows and sql. -/
theorem C15_time_key_counterexample :
    ∃ r ∈ emitted sampleWorld
        (Trace (sampleLogger log.Info 0 false) 0 sampleFc none sampleWorld),
      r.fields.map fieldKey ≠ ["time_ms", "rows", "sql"] ∧
      r.fields.map fieldKey = ["time", "rows", "sql"] :=
  ⟨traceRecord (sampleLogger log.Info 0 false) 0 sampleFc sampleWorld Level.DebugLevel "",
   by decide, by decide, by decide⟩

/-- C15, amended: every record emitted by Trace carries exactly three fields,
keyed time, rows and sql in this order, and the field time holds the float64
quotient of the elapsed nanoseconds by 10^6. -/
theorem C15_three_fields (l : Logger) (begin : Int) (fc : Unit → String × Int)
    (err : Option GoError) (w : World) :
    ∀ r ∈ emitted w (Trace l begin fc err w),
      r.fields.length = 3 ∧ r.fields.map fieldKey = ["time", "rows", "sql"] ∧
      r.fields.head? = some (Field.Float64 "time" (Since w.now begin) 1000000) := by
  intro r hr
  rw [emitted_Trace] at hr
  split_ifs at hr <;> simp at hr <;> subst hr <;> exact ⟨rfl, rfl, rfl⟩

/-- C15 amended, at a concrete call: the Error record of the sample call, 150ms
after the start. -/
theorem C15_three_fields_witness :
    (traceRecord (sampleLogger log.Error 0 false) 0 sampleFc sampleWorld Level.ErrorLevel
        "boom").fields.length = 3 ∧
      (traceRecord (sampleLogger log.Error 0 false) 0 sampleFc sampleWorld Level.ErrorLevel
        "boom").fields.map fieldKey = ["time", "rows", "sql"] ∧
      (traceRecord (sampleLogger log.Error 0 false) 0 sampleFc sampleWorld Level.ErrorLevel
        "boom").fields.head? = some (Field.Float64 "time" (Since sampleWorld.now 0) 1000000) :=
  C15_three_fields (sampleLogger log.Error 0 false) 0 sampleFc (some (GoError.leaf "boom"))
    sampleWorld
    (traceRecord (sampleLogger log.Error 0 false) 0 sampleFc sampleWorld Level.ErrorLevel
      "boom")
    (by decide)

/-! ## Level = Info -/

/-- C16: at Level = Info, for every elapsed time, error, SlowThreshold and
IgnoreRecordNotFoundError, Trace emits exactly one record, at Error, Warn or
Debug severity, and invokes the provider exactly once. -/
theorem C16_info_total (l : Logger) (begin : Int) (fc : Unit → String × Int)
    (err : Option GoError) (w : World) (hi : l.Level = log.Info) :
    (∃ r, emitted w (Trace l begin fc err w) = [r] ∧
        (Trace l begin fc err w).calls = w.calls ++ [r] ∧
        (r.level = Level.ErrorLevel ∨ r.level = Level.WarnLevel ∨
          r.level = Level.DebugLevel)) ∧
      (Trace l begin fc err w).fcCalls = w.fcCalls + 1 := by
  have key := emitted_Trace l begin fc err w
  rw [if_pos hi] at key
  have hc := Trace_calls l begin fc err w
  have hf := Trace_fcCalls l begin fc err w
  by_cases h1 : errorCase l err
  · rw [if_pos h1] at key
    rw [key] at hc hf
    exact ⟨⟨_, key, hc, Or.inl rfl⟩, hf⟩
  · rw [if_neg h1] at key
    by_cases h2 : slowCase l (Since w.now begin)
    · rw [if_pos h2] at key
      rw [key] at hc hf
      exact ⟨⟨_, key, hc, Or.inr (Or.inl rfl)⟩, hf⟩
    · rw [if_neg h2] at key
      rw [key] at hc hf
      exact ⟨⟨_, key, hc, Or.inr (Or.inr rfl)⟩, hf⟩

/-- C16, at a concrete call: a suppressed record-not-found error under the
threshold, at Level = Info, still gives one record and one invocation. -/
theorem C16_info_total_witness :
    (sampleLogger log.Info 200000000 true).Level = log.Info ∧
    (Trace (sampleLogger log.Info 200000000 true) 0 sampleFc
        (some GoError.ErrRecordNotFound) sampleWorld).fcCalls = sampleWorld.fcCalls + 1 :=
  ⟨rfl, (C16_info_total (sampleLogger log.Info 200000000 true) 0 sampleFc
    (some GoError.ErrRecordNotFound) sampleWorld rfl).2⟩

/-! ## loggers made by NewLogger and LogMode -/

/-- C17: the logger reached from NewLogger by any finite sequence of LogMode
calls exists, has SlowThreshold = 0 and IgnoreRecordNotFoundError = false and
keeps the sink; so Trace on it never emits a record at Warn severity, and at
Level >= Error it emits the Error record of every present error,
record-not-found errors included. -/
theorem C17_built_loggers (sink : Nat) (h : Heap) (levels : List Int) :
    ∃ q h2 l, LogModes levels (NewLogger sink h).1 (NewLogger sink h).2 = some (q, h2) ∧
      h2[q]? = some l ∧ l.SlowThreshold = 0 ∧ l.IgnoreRecordNotFoundError = false ∧
      l.logger = sink ∧
      ∀ (begin : Int) (fc : Unit → String × Int) (err : Option GoError) (w : World),
        (∀ r ∈ emitted w (Trace l begin fc err w), r.level ≠ Level.WarnLevel) ∧
        (l.Level ≥ log.Error → ∀ e : GoError, err = some e →
          emitted w (Trace l begin fc err w) =
            [traceRecord l begin fc w Level.ErrorLevel e.Error]) := by
  have h0 : (NewLogger sink h).2[(NewLogger sink h).1]? =
      some { SlowThreshold := 0, Colorful := false, IgnoreRecordNotFoundError := false,
             Level := 0, logger := sink } := by
    simp [NewLogger]
  obtain ⟨q, h2, l, e1, e2, e3, _, e5, e6⟩ := LogModes_keeps levels _ _ _ h0
  refine ⟨q, h2, l, e1, e2, e3, e5, e6, ?_⟩
  intro begin fc err w
  have hs : ¬ slowCase l (Since w.now begin) := fun hs => hs.2.1 e3
  have key := emitted_Trace l begin fc err w
  constructor
  · intro r hr
    rw [key] at hr
    split_ifs at hr <;> simp at hr <;> subst hr <;> simp [traceRecord]
  · intro hlv e he
    subst he
    have hc : errorCase l (some e) := ⟨by simp, hlv, Or.inr e5⟩
    rw [key, if_pos hc]
    rfl

/-- C17, at a concrete call: NewLogger on sink 7, then LogMode(Warn) and
LogMode(Error). -/
theorem C17_built_loggers_witness :
    ∃ q h2 l, LogModes [log.Warn, log.Error] (NewLogger 7 []).1 (NewLogger 7 []).2 =
        some (q, h2) ∧
      h2[q]? = some l ∧ l.SlowThreshold = 0 ∧ l.IgnoreRecordNotFoundError = false ∧
      l.logger = 7 :=
  (C17_built_loggers 7 [] [log.Warn, log.Error]).imp fun _ hq =>
    hq.imp fun _ hh => hh.imp fun _ hl => ⟨hl.1, hl.2.1, hl.2.2.1, hl.2.2.2.1, hl.2.2.2.2.1⟩

/-! ## a negative threshold -/

/-- C18: with a negative SlowThreshold, a non-negative elapsed time,
Level >= Warn and no error, Trace emits exactly one record, the slow-query
record at Warn severity. -/
theorem C18_negative_threshold (l : Logger) (begin : Int) (fc : Unit → String × Int)
    (w : World) (hneg : l.SlowThreshold < 0) (hel : 0 ≤ Since w.now begin)
    (hlv : l.Level ≥ log.Warn) :
    emitted w (Trace l begin fc none w) =
        [traceRecord l begin fc w Level.WarnLevel
          ("SLOW SQL >= " ++ Duration.String l.SlowThreshold)] ∧
      (Trace l begin fc none w).calls =
        w.calls ++ [traceRecord l begin fc w Level.WarnLevel
          ("SLOW SQL >= " ++ Duration.String l.SlowThreshold)] := by
  have hn : ¬ errorCase l none := fun hc => hc.1 rfl
  have hs : slowCase l (Since w.now begin) :=
    ⟨lt_of_lt_of_le hneg hel, ne_of_lt hneg, hlv⟩
  have key := emitted_Trace l begin fc none w
  rw [if_neg hn, if_pos hs] at key
  refine ⟨key, ?_⟩
  rw [Trace_calls, key]

/-- C18, at a concrete call: a threshold of -1s, 150ms elapsed, Level = Warn. -/
theorem C18_negative_threshold_witness :
    (sampleLogger log.Warn (-1000000000) false).SlowThreshold < 0 ∧
    emitted sampleWorld
        (Trace (sampleLogger log.Warn (-1000000000) false) 0 sampleFc none sampleWorld) =
      [traceRecord (sampleLogger log.Warn (-1000000000) false) 0 sampleFc sampleWorld
        Level.WarnLevel
        ("SLOW SQL >= " ++ Duration.String (sampleLogger log.Warn (-1000000000) false).SlowThreshold)] :=
  ⟨by decide,
   (C18_negative_threshold (sampleLogger log.Warn (-1000000000) false) 0 sampleFc sampleWorld
    (by decide) (by decide) (by decide)).1⟩

end Database
